import Mathlib

/-!
# GetSuite mock-NetSuite record service: shallow embedding

A shallow embedding of `src/getsuiteAPI.py`, a FastAPI service exposing CRUD
endpoints over two SQLite tables (`customers` and `sales_orders`).  The store
is modelled as the pair of tables, each a list of rows in rowid order; every
endpoint becomes a pure function from its request arguments and the current
store to the resulting store paired with the HTTP outcome.

Modelling conventions, each justified against the source:

* `time.strftime` results are passed in as explicit `String` arguments
  (`now` / `today`); the handlers only ever store and copy them.
* `simulate_latency()` sleeps and touches no state, so it has no counterpart.
* SQLite integers are modelled as `Int`.  The store-assigned primary key of an
  insert is one more than the largest id in the table (SQLite rowid
  assignment), with 1 for an empty table.
* The `total` column is a Python float, but the service only ever stores and
  copies it (no arithmetic is performed anywhere), so it is modelled by an
  exact numeric type, `Rat`; every observable behaviour factors through
  carrying the value unchanged.
* A pydantic model instance carries, besides its field values, the set of
  fields that were explicitly present in the request payload
  (`model_fields_set`).  Only `update_customer` consults it (via
  `model_dump(exclude_unset=True)`), and only the `status` field of
  `CustomerBase` is optional there, so `CustomerBase` carries one extra flag
  `statusProvided`.  Required fields (`companyName`, `email`) are always set
  in a validated payload; `CustomerPayload.validate` models that validation.
* `raise HTTPException(...)` becomes an `Except.error` carrying the status
  code and detail; FastAPI rolls the request back, so the handler returns the
  store it was given.  An uncaught Python `TypeError` is a distinct error
  constructor (FastAPI surfaces it as a 500 response).
* `db.query(T).filter(T.id == x).first()` becomes `List.find?` on the table;
  `db.delete(row)` deletes the row with that primary key, i.e. filters the
  table by id; mutating a fetched ORM row and committing updates the row with
  that id, i.e. maps a pointwise replacement over the table.
-/

namespace GetSuite

/-- Row of the `customers` table (class `DBCustomer`, lines 36-45). -/
structure DBCustomer where
  id : Int
  entityId : String
  companyName : String
  email : String
  status : String
  dateCreated : String
  lastUpdated : Option String
  deriving DecidableEq, Repr

/-- Row of the `sales_orders` table (class `DBSalesOrder`, lines 47-56).
`entity` is an untyped integer reference to `customers.id`; `total` is a
float in the source, carried opaquely (see module docstring). -/
structure DBSalesOrder where
  id : Int
  tranId : String
  entity : Int
  total : Rat
  status : String
  trandate : Option String
  lastUpdated : Option String
  deriving DecidableEq, Repr

/-- The persistent store: the two tables, rows in rowid order. -/
structure Store where
  customers : List DBCustomer
  salesOrders : List DBSalesOrder
  deriving DecidableEq, Repr

/-- The store just after `Base.metadata.create_all` on a fresh file. -/
def emptyStore : Store := { customers := [], salesOrders := [] }

/-- SQLite rowid assignment for an insert into `customers`: one more than the
largest id present, 1 for an empty table. -/
def nextCustomerId (db : Store) : Int :=
  (db.customers.foldl (fun m c => max m c.id) 0) + 1

/-- SQLite rowid assignment for an insert into `sales_orders`. -/
def nextSalesOrderId (db : Store) : Int :=
  (db.salesOrders.foldl (fun m o => max m o.id) 0) + 1

/-- An HTTP error outcome: either an `HTTPException` raised by the handler
(status code and detail string), or an uncaught Python `TypeError`, which
FastAPI surfaces as a 500 response. -/
inductive ApiError where
  | http (status_code : Nat) (detail : String)
  | typeError (message : String)
  deriving DecidableEq, Repr

/-- A successful HTTP response: the status code declared on the route
decorator and the response body (`Unit` for 204 No Content routes). -/
structure HttpResponse (α : Type) where
  status_code : Nat
  body : α
  deriving DecidableEq, Repr

/-- Pydantic schema `CustomerBase` (lines 63-67): `companyName` and `email`
required, `status` defaulting to `"Active"`.  `statusProvided` records
whether `status` was explicitly present in the payload
(pydantic `model_fields_set`), which `model_dump(exclude_unset=True)`
consults in `update_customer`. -/
structure CustomerBase where
  companyName : String
  email : String
  status : String
  statusProvided : Bool
  deriving DecidableEq, Repr

/-- A raw customer request body before pydantic validation: each schema field
either present with a value or absent. -/
structure CustomerPayload where
  companyName : Option String
  email : Option String
  status : Option String
  deriving DecidableEq, Repr

/-- Pydantic validation of a `CustomerBase` body: required fields must be
present (otherwise FastAPI rejects the request with a 422 naming the missing
fields, in field declaration order); `status` falls back to its default
`"Active"` when absent. -/
def CustomerPayload.validate (p : CustomerPayload) : Except (List String) CustomerBase :=
  match p.companyName, p.email with
  | some cn, some em =>
      .ok { companyName := cn, email := em,
            status := p.status.getD "Active", statusProvided := p.status.isSome }
  | none, some _ => .error ["companyName"]
  | some _, none => .error ["email"]
  | none, none => .error ["companyName", "email"]

/-- Pydantic schema `SalesOrderBase` (lines 79-84): `entity` and `total`
required, `status` defaulting to `"Pending Fulfillment"`, `trandate`
optional defaulting to `None`.  No endpoint consults its
`model_fields_set`, so no provided-flags are carried. -/
structure SalesOrderBase where
  entity : Int
  total : Rat
  status : String
  trandate : Option String
  deriving DecidableEq, Repr

/-- `POST /services/rest/record/v1/customer` (lines 113-133).  Two-phase
create: insert the row with `entityId` temporarily empty, then patch
`entityId = "CUST-{id}"` using the store-assigned id, and return the
patched record with the decorator status 201. -/
def create_customer (customer : CustomerBase) (now : String) (db : Store) :
    Store × Except ApiError (HttpResponse DBCustomer) :=
  let db_customer : DBCustomer :=
    { id := nextCustomerId db
      entityId := ""
      companyName := customer.companyName
      email := customer.email
      status := customer.status
      dateCreated := now
      lastUpdated := none }
  let db1 : Store := { db with customers := db.customers ++ [db_customer] }
  let patched : DBCustomer := { db_customer with entityId := "CUST-" ++ toString db_customer.id }
  let db2 : Store :=
    { db1 with customers := db1.customers.map (fun c => if c.id == db_customer.id then patched else c) }
  (db2, .ok { status_code := 201, body := patched })

/-- `GET /services/rest/record/v1/customer` (lines 135-140): return all
customer rows with status 200. -/
def get_customer_collection (db : Store) :
    Store × Except ApiError (HttpResponse (List DBCustomer)) :=
  (db, .ok { status_code := 200, body := db.customers })

/-- `GET /services/rest/record/v1/customer/{customer_id}` (lines 142-149):
return the row with that id, or 404. -/
def get_customer_by_id (customer_id : Int) (db : Store) :
    Store × Except ApiError (HttpResponse DBCustomer) :=
  match db.customers.find? (fun c => c.id == customer_id) with
  | none => (db, .error (.http 404 "Customer not found"))
  | some customer => (db, .ok { status_code := 200, body := customer })

/-- The row mutation performed by `update_customer` on the fetched row
(lines 159-165): set `status = "On Hold"` and refresh `lastUpdated`, then
apply `setattr` for each field of `model_dump(exclude_unset=True)` in field
declaration order — `companyName` and `email` are always set on a validated
payload, `status` only when it was present in the request body. -/
def apply_customer_update (customer : DBCustomer) (customer_update : CustomerBase)
    (now : String) : DBCustomer :=
  let c1 := { customer with status := "On Hold", lastUpdated := some now }
  let c2 := { c1 with companyName := customer_update.companyName, email := customer_update.email }
  if customer_update.statusProvided then { c2 with status := customer_update.status } else c2

/-- `PUT /services/rest/record/v1/customer/{customer_id}` (lines 151-168):
404 if the id is absent; otherwise mutate the fetched row per
`apply_customer_update`, commit, and return 204 with no body. -/
def update_customer (customer_id : Int) (customer_update : CustomerBase) (now : String)
    (db : Store) : Store × Except ApiError (HttpResponse Unit) :=
  match db.customers.find? (fun c => c.id == customer_id) with
  | none => (db, .error (.http 404 "Customer not found"))
  | some customer =>
      let updated := apply_customer_update customer customer_update now
      ({ db with customers := db.customers.map (fun c => if c.id == customer_id then updated else c) },
       .ok { status_code := 204, body := () })

/-- `DELETE /services/rest/record/v1/customer/{customer_id}` (lines 170-180):
404 if the id is absent; otherwise delete the row with that primary key and
return 204 with no body.  No referential cleanup of sales orders. -/
def delete_customer (customer_id : Int) (db : Store) :
    Store × Except ApiError (HttpResponse Unit) :=
  match db.customers.find? (fun c => c.id == customer_id) with
  | none => (db, .error (.http 404 "Customer not found"))
  | some _ =>
      ({ db with customers := db.customers.filter (fun c => !(c.id == customer_id)) },
       .ok { status_code := 204, body := () })

/-- `POST /services/rest/record/v1/salesorder` (lines 184-208).  The handler
first checks that `order.entity` is an existing customer id and raises a 400
naming the offending id if not.  Past that check, line 194 constructs
`DBSalesOrder(**order.model_dump(), trandate=order.trandate or ...)`:
`model_dump()` always contains the key `trandate`, so the call passes the
keyword argument `trandate` twice, which Python rejects with
`TypeError: got multiple values for keyword argument 'trandate'` at the call
site — before `db.add` runs.  The insert, the `tranId = "SO-{id}"` patch and
the 201 return of lines 194-208 are unreachable. -/
def create_sales_order (order : SalesOrderBase) (today : String) (db : Store) :
    Store × Except ApiError (HttpResponse DBSalesOrder) :=
  match db.customers.find? (fun c => c.id == order.entity) with
  | none =>
      (db, .error (.http 400
        ("Customer ID " ++ toString order.entity ++ " not found. Cannot create Sales Order.")))
  | some _ =>
      (db, .error (.typeError "got multiple values for keyword argument trandate"))

/-- `PUT /services/rest/record/v1/salesorder/{order_id}` (lines 210-223):
404 if the id is absent; otherwise set `status = "Billed"`, refresh
`lastUpdated`, apply no payload field, commit, and return 204 with no
body. -/
def update_sales_order (order_id : Int) (order_update : SalesOrderBase) (now : String)
    (db : Store) : Store × Except ApiError (HttpResponse Unit) :=
  match db.salesOrders.find? (fun o => o.id == order_id) with
  | none => (db, .error (.http 404 "Sales Order not found"))
  | some order =>
      let updated := { order with status := "Billed", lastUpdated := some now }
      ({ db with salesOrders := db.salesOrders.map (fun o => if o.id == order_id then updated else o) },
       .ok { status_code := 204, body := () })

/-- `DELETE /services/rest/record/v1/salesorder/{order_id}` (lines 225-235):
404 if the id is absent; otherwise delete the row with that primary key and
return 204 with no body. -/
def delete_sales_order (order_id : Int) (db : Store) :
    Store × Except ApiError (HttpResponse Unit) :=
  match db.salesOrders.find? (fun o => o.id == order_id) with
  | none => (db, .error (.http 404 "Sales Order not found"))
  | some _ =>
      ({ db with salesOrders := db.salesOrders.filter (fun o => !(o.id == order_id)) },
       .ok { status_code := 204, body := () })

/-- One request handled by the service: the store moves to the first
component of the handler's result (both on success and on an HTTP error,
since errors are raised before any commit on their path). -/
inductive Step : Store → Store → Prop where
  | createCustomer (c : CustomerBase) (now : String) (db : Store) :
      Step db (create_customer c now db).1
  | getCollection (db : Store) : Step db (get_customer_collection db).1
  | getById (i : Int) (db : Store) : Step db (get_customer_by_id i db).1
  | updateCustomer (i : Int) (c : CustomerBase) (now : String) (db : Store) :
      Step db (update_customer i c now db).1
  | deleteCustomer (i : Int) (db : Store) : Step db (delete_customer i db).1
  | createSalesOrder (o : SalesOrderBase) (today : String) (db : Store) :
      Step db (create_sales_order o today db).1
  | updateSalesOrder (i : Int) (o : SalesOrderBase) (now : String) (db : Store) :
      Step db (update_sales_order i o now db).1
  | deleteSalesOrder (i : Int) (db : Store) : Step db (delete_sales_order i db).1

/-- Store states externally observable between requests: reachable from the
fresh store by a sequence of handled requests. -/
inductive Reachable : Store → Prop where
  | init : Reachable emptyStore
  | step {s t : Store} : Reachable s → Step s t → Reachable t

/-! ## Supporting lemmas -/

/-- A string with the literal prefix `CUST-` is never empty. -/
theorem cust_prefixed_ne_empty (t : String) : "CUST-" ++ t ≠ "" := by
  intro h
  have h2 := congrArg String.length h
  simp [String.length_append] at h2
  exact absurd h2.1 (by decide)

/-- The customer-update mutation never touches the `entityId` column. -/
theorem apply_customer_update_entityId (c : DBCustomer) (cu : CustomerBase) (now : String) :
    (apply_customer_update c cu now).entityId = c.entityId := by
  unfold apply_customer_update
  by_cases hs : cu.statusProvided <;> simp [hs]

/-- Sales-order creation never changes the store: it raises before `db.add`
on both of its reachable paths. -/
theorem create_sales_order_fst (o : SalesOrderBase) (today : String) (db : Store) :
    (create_sales_order o today db).1 = db := by
  cases h : db.customers.find? (fun c => c.id == o.entity) <;> simp [create_sales_order, h]

/-- Get-by-id never changes the store. -/
theorem get_customer_by_id_fst (i : Int) (db : Store) :
    (get_customer_by_id i db).1 = db := by
  cases h : db.customers.find? (fun c => c.id == i) <;> simp [get_customer_by_id, h]

/-- Customer update never touches the `sales_orders` table. -/
theorem update_customer_fst_salesOrders (i : Int) (cu : CustomerBase) (now : String) (db : Store) :
    ((update_customer i cu now db).1).salesOrders = db.salesOrders := by
  cases h : db.customers.find? (fun c => c.id == i) <;> simp [update_customer, h]

/-- Sales-order update never touches the `customers` table. -/
theorem update_sales_order_fst_customers (i : Int) (p : SalesOrderBase) (now : String)
    (db : Store) : ((update_sales_order i p now db).1).customers = db.customers := by
  cases h : db.salesOrders.find? (fun o => o.id == i) <;> simp [update_sales_order, h]

/-- Sales-order delete never touches the `customers` table. -/
theorem delete_sales_order_fst_customers (i : Int) (db : Store) :
    ((delete_sales_order i db).1).customers = db.customers := by
  cases h : db.salesOrders.find? (fun o => o.id == i) <;> simp [delete_sales_order, h]

/-- Searching by a predicate in a list filtered to its complement finds
nothing. -/
theorem find?_filter_not {α : Type} (l : List α) (p : α → Bool) :
    (l.filter (fun x => !(p x))).find? p = none := by
  simp [List.find?_eq_none]

/-! ## Concrete demonstration data

Small concrete requests and stores used to witness the claim theorems at
explicit inputs (the customer follows the scenario of spec §8). -/

/-- The validated body of `POST customer {companyName: Acme, email: a@acme.com}`:
`status` absent, so it holds its default. -/
def demoCreateBody : CustomerBase :=
  { companyName := "Acme", email := "a@acme.com", status := "Active", statusProvided := false }

/-- A fixed `time.strftime` timestamp for demonstration runs. -/
def demoNow : String := "2026-10-12T00:00:00Z"

/-- The store produced by one customer create against the fresh store. -/
def demoStore : Store := (create_customer demoCreateBody demoNow emptyStore).1

/-- The single row of `demoStore`. -/
def demoCustomer : DBCustomer :=
  { id := 1, entityId := "CUST-1", companyName := "Acme", email := "a@acme.com",
    status := "Active", dateCreated := demoNow, lastUpdated := none }

/-- A validated sales-order body referencing customer 1 (spec §8 scenario:
`{entity: 1, total: 99.5}` with both optional fields left to their
defaults). -/
def demoOrderBody : SalesOrderBase :=
  { entity := 1, total := 99.5, status := "Pending Fulfillment", trandate := none }

/-- A validated sales-order body referencing the absent customer id 42. -/
def demoBadOrderBody : SalesOrderBase :=
  { entity := 42, total := 99.5, status := "Pending Fulfillment", trandate := none }

/-- An update body that supplies an explicit `status`. -/
def demoUpdateBody : CustomerBase :=
  { companyName := "Acme Ltd", email := "b@acme.com", status := "Closed", statusProvided := true }

/-- A sales-order row as the table could hold it (the running service cannot
insert one — see `create_sales_order` — but the SQLite file may carry rows
from other writers, and the update and delete handlers accept any store). -/
def demoOrderRow : DBSalesOrder :=
  { id := 1, tranId := "SO-1", entity := 1, total := 99.5, status := "Pending Fulfillment",
    trandate := some "2026-10-12", lastUpdated := none }

/-- A store holding one orphaned sales order: its `entity` references
customer 1, and the `customers` table is empty. -/
def demoOrphanStore : Store := { customers := [], salesOrders := [demoOrderRow] }

/-! ## Claim theorems -/

/-- C10: the read operations — List customers and Get customer by id — never
modify the store: for every input and every store state, the store after the
operation equals the store before it, whether the operation succeeds or
fails with Not-Found. -/
theorem reads_never_modify_store :
    (∀ db : Store, (get_customer_collection db).1 = db) ∧
    (∀ (customer_id : Int) (db : Store), (get_customer_by_id customer_id db).1 = db) := by
  constructor
  · intro db; rfl
  · intro i db; exact get_customer_by_id_fst i db

/-- C7: a Customer delete — in particular every successful one — leaves the
`sales_orders` table exactly as it was, including orders whose `entity`
references the deleted customer's id: no cascade delete, no field
modification. -/
theorem delete_customer_preserves_sales_orders (customer_id : Int) (db : Store) :
    ((delete_customer customer_id db).1).salesOrders = db.salesOrders := by
  cases h : db.customers.find? (fun c => c.id == customer_id) <;> simp [delete_customer, h]

/-- C5: when a Sales Order create names an `entity` that matches no existing
Customer id, the handler fails with a 400 whose detail names the offending
customer id, and returns the store unchanged — no partial write. -/
theorem create_sales_order_invalid_reference (order : SalesOrderBase) (today : String)
    (db : Store) (h : db.customers.find? (fun c => c.id == order.entity) = none) :
    create_sales_order order today db =
      (db, .error (.http 400
        ("Customer ID " ++ toString order.entity ++ " not found. Cannot create Sales Order."))) := by
  simp [create_sales_order, h]

/-- C6: for either resource, deleting an absent id fails with Not-Found
(404); deleting an existing id succeeds with 204 and removes the record —
for a Customer, a subsequent Get by the same id fails with Not-Found (404);
for a Sales Order, no row with the deleted id remains in the table. -/
theorem delete_then_get_semantics :
    (∀ (customer_id : Int) (db : Store),
        db.customers.find? (fun c => c.id == customer_id) = none →
        delete_customer customer_id db = (db, .error (.http 404 "Customer not found"))) ∧
    (∀ (order_id : Int) (db : Store),
        db.salesOrders.find? (fun o => o.id == order_id) = none →
        delete_sales_order order_id db = (db, .error (.http 404 "Sales Order not found"))) ∧
    (∀ (customer_id : Int) (db : Store) (c : DBCustomer),
        db.customers.find? (fun x => x.id == customer_id) = some c →
        (delete_customer customer_id db).2 = .ok { status_code := 204, body := () } ∧
        get_customer_by_id customer_id (delete_customer customer_id db).1 =
          ((delete_customer customer_id db).1, .error (.http 404 "Customer not found"))) ∧
    (∀ (order_id : Int) (db : Store) (o : DBSalesOrder),
        db.salesOrders.find? (fun x => x.id == order_id) = some o →
        (delete_sales_order order_id db).2 = .ok { status_code := 204, body := () } ∧
        ((delete_sales_order order_id db).1).salesOrders.find?
          (fun x => x.id == order_id) = none) := by
  refine ⟨?_, ?_, ?_, ?_⟩
  · intro i db h; simp [delete_customer, h]
  · intro i db h; simp [delete_sales_order, h]
  · intro i db c h
    have hdel : delete_customer i db =
        ({ db with customers := db.customers.filter (fun x => !(x.id == i)) },
         .ok { status_code := 204, body := () }) := by
      simp [delete_customer, h]
    refine ⟨by rw [hdel], ?_⟩
    have hfind : ((delete_customer i db).1).customers.find? (fun x => x.id == i) = none := by
      rw [hdel]
      exact find?_filter_not db.customers (fun x => x.id == i)
    simp [get_customer_by_id, hfind]
  · intro i db o h
    have hdel : delete_sales_order i db =
        ({ db with salesOrders := db.salesOrders.filter (fun x => !(x.id == i)) },
         .ok { status_code := 204, body := () }) := by
      simp [delete_sales_order, h]
    refine ⟨by rw [hdel], ?_⟩
    rw [hdel]
    exact find?_filter_not db.salesOrders (fun x => x.id == i)

/-- Witness for C5: the concrete bad-reference create against the fresh
store hits the 400 branch with the offending id 42 in the message. -/
theorem create_sales_order_invalid_reference_witness :
    emptyStore.customers.find? (fun c => c.id == demoBadOrderBody.entity) = none ∧
    create_sales_order demoBadOrderBody demoNow emptyStore =
      (emptyStore, .error (.http 400
        ("Customer ID " ++ toString demoBadOrderBody.entity ++
          " not found. Cannot create Sales Order."))) :=
  ⟨rfl, create_sales_order_invalid_reference demoBadOrderBody demoNow emptyStore rfl⟩

/-- Witness for C6 at concrete inputs: absent ids 404 on both resources
against the fresh store, deleting customer 1 from `demoStore` makes the
subsequent get 404, and deleting order 1 from the one-order store returns
204 and leaves no row with id 1. -/
theorem delete_then_get_semantics_witness :
    (emptyStore.customers.find? (fun c => c.id == (1 : Int)) = none ∧
      delete_customer 1 emptyStore = (emptyStore, .error (.http 404 "Customer not found"))) ∧
    (emptyStore.salesOrders.find? (fun o => o.id == (1 : Int)) = none ∧
      delete_sales_order 1 emptyStore =
        (emptyStore, .error (.http 404 "Sales Order not found"))) ∧
    (demoStore.customers.find? (fun x => x.id == (1 : Int)) = some demoCustomer ∧
      (delete_customer 1 demoStore).2 = .ok { status_code := 204, body := () } ∧
      get_customer_by_id 1 (delete_customer 1 demoStore).1 =
        ((delete_customer 1 demoStore).1, .error (.http 404 "Customer not found"))) ∧
    (demoOrphanStore.salesOrders.find? (fun x => x.id == (1 : Int)) = some demoOrderRow ∧
      (delete_sales_order 1 demoOrphanStore).2 = .ok { status_code := 204, body := () } ∧
      ((delete_sales_order 1 demoOrphanStore).1).salesOrders.find?
        (fun x => x.id == (1 : Int)) = none) :=
  ⟨⟨rfl, delete_then_get_semantics.1 1 emptyStore rfl⟩,
   ⟨rfl, delete_then_get_semantics.2.1 1 emptyStore rfl⟩,
   ⟨by decide, delete_then_get_semantics.2.2.1 1 demoStore demoCustomer (by decide)⟩,
   ⟨rfl, delete_then_get_semantics.2.2.2 1 demoOrphanStore demoOrderRow rfl⟩⟩

/-- C3: a Customer update on an existing id returns 204 with no body and
stores a record whose `status` is the payload value when the payload
explicitly carried a `status` field and `"On Hold"` otherwise, with
`lastUpdated` refreshed to the current timestamp. -/
theorem update_customer_status_semantics (customer_id : Int) (cu : CustomerBase)
    (now : String) (db : Store) (c : DBCustomer)
    (h : db.customers.find? (fun x => x.id == customer_id) = some c) :
    ∃ updated : DBCustomer,
      update_customer customer_id cu now db =
        ({ db with customers :=
            db.customers.map (fun x => if x.id == customer_id then updated else x) },
         .ok { status_code := 204, body := () }) ∧
      updated.status = (if cu.statusProvided then cu.status else "On Hold") ∧
      updated.lastUpdated = some now := by
  refine ⟨apply_customer_update c cu now, ?_, ?_, ?_⟩
  · simp [update_customer, h]
  · unfold apply_customer_update; by_cases hs : cu.statusProvided <;> simp [hs]
  · unfold apply_customer_update; by_cases hs : cu.statusProvided <;> simp [hs]

/-- Witness for C3: updating customer 1 of `demoStore` with a payload that
omits `status` yields a stored `"On Hold"` record and a 204. -/
theorem update_customer_status_semantics_witness :
    demoStore.customers.find? (fun x => x.id == (1 : Int)) = some demoCustomer ∧
    (∃ updated : DBCustomer,
      update_customer 1 demoCreateBody demoNow demoStore =
        ({ demoStore with customers :=
            demoStore.customers.map (fun x => if x.id == (1 : Int) then updated else x) },
         .ok { status_code := 204, body := () }) ∧
      updated.status = (if demoCreateBody.statusProvided then demoCreateBody.status else "On Hold") ∧
      updated.lastUpdated = some demoNow) :=
  ⟨by decide,
   update_customer_status_semantics 1 demoCreateBody demoNow demoStore demoCustomer (by decide)⟩

/-- C4: a Sales Order update on an existing id returns 204 with no body and
replaces only the rows with that id, the replacement differing from the
fetched row exactly in `status` (now `"Billed"`) and `lastUpdated` (now
refreshed); `id`, `tranId`, `entity`, `total` and `trandate` are unchanged,
the `customers` table is unchanged, and every other sales-order row is still
present unchanged. -/
theorem update_sales_order_semantics (order_id : Int) (p : SalesOrderBase) (now : String)
    (db : Store) (o : DBSalesOrder)
    (h : db.salesOrders.find? (fun x => x.id == order_id) = some o) :
    ∃ updated : DBSalesOrder,
      update_sales_order order_id p now db =
        ({ db with salesOrders :=
            db.salesOrders.map (fun x => if x.id == order_id then updated else x) },
         .ok { status_code := 204, body := () }) ∧
      updated.status = "Billed" ∧ updated.lastUpdated = some now ∧
      updated.id = o.id ∧ updated.tranId = o.tranId ∧ updated.entity = o.entity ∧
      updated.total = o.total ∧ updated.trandate = o.trandate ∧
      ((update_sales_order order_id p now db).1).customers = db.customers ∧
      ∀ x ∈ db.salesOrders, x.id ≠ order_id →
        x ∈ ((update_sales_order order_id p now db).1).salesOrders := by
  refine ⟨{ o with status := "Billed", lastUpdated := some now },
    ?_, rfl, rfl, rfl, rfl, rfl, rfl, rfl, update_sales_order_fst_customers order_id p now db, ?_⟩
  · simp [update_sales_order, h]
  · intro x hx hne
    have hmem : x ∈ db.salesOrders.map
        (fun y => if y.id == order_id
          then { o with status := "Billed", lastUpdated := some now } else y) := by
      refine List.mem_map.mpr ⟨x, hx, ?_⟩
      simp [hne]
    simpa [update_sales_order, h] using hmem

/-- Witness for C4: updating order 1 of the one-order store flips its status
to Billed, refreshes `lastUpdated`, and touches nothing else. -/
theorem update_sales_order_semantics_witness :
    demoOrphanStore.salesOrders.find? (fun x => x.id == (1 : Int)) = some demoOrderRow ∧
    (∃ updated : DBSalesOrder,
      update_sales_order 1 demoOrderBody demoNow demoOrphanStore =
        ({ demoOrphanStore with salesOrders :=
            demoOrphanStore.salesOrders.map (fun x => if x.id == (1 : Int) then updated else x) },
         .ok { status_code := 204, body := () }) ∧
      updated.status = "Billed" ∧ updated.lastUpdated = some demoNow ∧
      updated.id = demoOrderRow.id ∧ updated.tranId = demoOrderRow.tranId ∧
      updated.entity = demoOrderRow.entity ∧
      updated.total = demoOrderRow.total ∧ updated.trandate = demoOrderRow.trandate ∧
      ((update_sales_order 1 demoOrderBody demoNow demoOrphanStore).1).customers =
        demoOrphanStore.customers ∧
      ∀ x ∈ demoOrphanStore.salesOrders, x.id ≠ (1 : Int) →
        x ∈ ((update_sales_order 1 demoOrderBody demoNow demoOrphanStore).1).salesOrders) :=
  ⟨rfl,
   update_sales_order_semantics 1 demoOrderBody demoNow demoOrphanStore demoOrderRow rfl⟩

/-- C8: pydantic rejects a Customer update payload missing a required field
(`companyName` or `email`), names the payload values in the accepted model,
and every accepted update overwrites the stored `companyName` and `email`
with the payload's values — neither can be preserved by omission. -/
theorem update_customer_required_fields_overwritten :
    (∀ p : CustomerPayload, (p.companyName = none ∨ p.email = none) →
        ∃ missing, p.validate = .error missing ∧ missing ≠ []) ∧
    (∀ (p : CustomerPayload) (cb : CustomerBase), p.validate = .ok cb →
        p.companyName = some cb.companyName ∧ p.email = some cb.email) ∧
    (∀ (customer_id : Int) (cb : CustomerBase) (now : String) (db : Store) (c : DBCustomer),
        db.customers.find? (fun x => x.id == customer_id) = some c →
        ∃ updated : DBCustomer,
          update_customer customer_id cb now db =
            ({ db with customers :=
                db.customers.map (fun x => if x.id == customer_id then updated else x) },
             .ok { status_code := 204, body := () }) ∧
          updated.companyName = cb.companyName ∧ updated.email = cb.email) := by
  refine ⟨?_, ?_, ?_⟩
  · intro p hp
    rcases hcn : p.companyName with _ | cn <;> rcases hem : p.email with _ | em
    · exact ⟨["companyName", "email"],
        by simp [CustomerPayload.validate, hcn, hem], by simp⟩
    · exact ⟨["companyName"], by simp [CustomerPayload.validate, hcn, hem], by simp⟩
    · exact ⟨["email"], by simp [CustomerPayload.validate, hcn, hem], by simp⟩
    · rcases hp with hp | hp
      · rw [hcn] at hp; exact absurd hp (by simp)
      · rw [hem] at hp; exact absurd hp (by simp)
  · intro p cb h
    rcases hcn : p.companyName with _ | cn <;> rcases hem : p.email with _ | em <;>
      simp [CustomerPayload.validate, hcn, hem] at h
    rw [← h]
    exact ⟨rfl, rfl⟩
  · intro i cb now db c h
    refine ⟨apply_customer_update c cb now, ?_, ?_, ?_⟩
    · simp [update_customer, h]
    · unfold apply_customer_update; by_cases hs : cb.statusProvided <;> simp [hs]
    · unfold apply_customer_update; by_cases hs : cb.statusProvided <;> simp [hs]

/-- Witness for C8 at concrete inputs: a payload missing `companyName` is
rejected, a full payload round-trips, and the accepted update against
`demoStore` overwrites both required fields. -/
theorem update_customer_required_fields_overwritten_witness :
    (({ companyName := none, email := some "a@acme.com", status := none } :
        CustomerPayload).companyName = none ∧
      ∃ missing, ({ companyName := none, email := some "a@acme.com", status := none } :
          CustomerPayload).validate = .error missing ∧ missing ≠ []) ∧
    (({ companyName := some "Acme", email := some "a@acme.com", status := none } :
        CustomerPayload).validate = .ok demoCreateBody ∧
      ({ companyName := some "Acme", email := some "a@acme.com", status := none } :
          CustomerPayload).companyName = some demoCreateBody.companyName ∧
      ({ companyName := some "Acme", email := some "a@acme.com", status := none } :
          CustomerPayload).email = some demoCreateBody.email) ∧
    (demoStore.customers.find? (fun x => x.id == (1 : Int)) = some demoCustomer ∧
      ∃ updated : DBCustomer,
        update_customer 1 demoUpdateBody demoNow demoStore =
          ({ demoStore with customers :=
              demoStore.customers.map (fun x => if x.id == (1 : Int) then updated else x) },
           .ok { status_code := 204, body := () }) ∧
        updated.companyName = demoUpdateBody.companyName ∧
        updated.email = demoUpdateBody.email) :=
  ⟨⟨rfl, update_customer_required_fields_overwritten.1
      { companyName := none, email := some "a@acme.com", status := none } (Or.inl rfl)⟩,
   ⟨rfl, update_customer_required_fields_overwritten.2.1
      { companyName := some "Acme", email := some "a@acme.com", status := none }
      demoCreateBody rfl⟩,
   ⟨by decide, update_customer_required_fields_overwritten.2.2
      1 demoUpdateBody demoNow demoStore demoCustomer (by decide)⟩⟩

/-- C9: a Sales Order update fails with Not-Found (404) exactly when the
order id is absent — those are its only two outcomes — and it performs no
check on the order's `entity`: updating an orphaned order whose referenced
Customer no longer exists still returns 204 and stores status
`"Billed"`. -/
theorem update_sales_order_404_iff_absent :
    (∀ (order_id : Int) (p : SalesOrderBase) (now : String) (db : Store),
        (update_sales_order order_id p now db).2 =
            .error (.http 404 "Sales Order not found") ↔
          db.salesOrders.find? (fun x => x.id == order_id) = none) ∧
    (∀ (order_id : Int) (p : SalesOrderBase) (now : String) (db : Store),
        (update_sales_order order_id p now db).2 = .ok { status_code := 204, body := () } ∨
        (update_sales_order order_id p now db).2 =
          .error (.http 404 "Sales Order not found")) ∧
    (∀ (order_id : Int) (p : SalesOrderBase) (now : String) (db : Store) (o : DBSalesOrder),
        db.salesOrders.find? (fun x => x.id == order_id) = some o →
        db.customers.find? (fun c => c.id == o.entity) = none →
        (update_sales_order order_id p now db).2 = .ok { status_code := 204, body := () } ∧
        ∃ updated : DBSalesOrder,
          ((update_sales_order order_id p now db).1).salesOrders =
            db.salesOrders.map (fun x => if x.id == order_id then updated else x) ∧
          updated.status = "Billed") := by
  refine ⟨?_, ?_, ?_⟩
  · intro i p now db
    cases hfind : db.salesOrders.find? (fun x => x.id == i) <;>
      simp [update_sales_order, hfind]
  · intro i p now db
    cases hfind : db.salesOrders.find? (fun x => x.id == i) <;>
      simp [update_sales_order, hfind]
  · intro i p now db o h hcust
    refine ⟨by simp [update_sales_order, h],
      { o with status := "Billed", lastUpdated := some now }, by simp [update_sales_order, h], rfl⟩

/-- Witness for C9: against the one-orphaned-order store, updating the
absent id 2 is the 404 case of the iff, updating id 1 is the success side of
the disjunction, and the orphan clause applies with its customer lookup
empty. -/
theorem update_sales_order_404_iff_absent_witness :
    ((update_sales_order 2 demoOrderBody demoNow demoOrphanStore).2 =
        .error (.http 404 "Sales Order not found") ↔
      demoOrphanStore.salesOrders.find? (fun x => x.id == (2 : Int)) = none) ∧
    ((update_sales_order 1 demoOrderBody demoNow demoOrphanStore).2 =
        .ok { status_code := 204, body := () } ∨
      (update_sales_order 1 demoOrderBody demoNow demoOrphanStore).2 =
        .error (.http 404 "Sales Order not found")) ∧
    (demoOrphanStore.salesOrders.find? (fun x => x.id == (1 : Int)) = some demoOrderRow ∧
      demoOrphanStore.customers.find? (fun c => c.id == demoOrderRow.entity) = none ∧
      (update_sales_order 1 demoOrderBody demoNow demoOrphanStore).2 =
        .ok { status_code := 204, body := () } ∧
      ∃ updated : DBSalesOrder,
        ((update_sales_order 1 demoOrderBody demoNow demoOrphanStore).1).salesOrders =
          demoOrphanStore.salesOrders.map
            (fun x => if x.id == (1 : Int) then updated else x) ∧
        updated.status = "Billed") :=
  ⟨update_sales_order_404_iff_absent.1 2 demoOrderBody demoNow demoOrphanStore,
   update_sales_order_404_iff_absent.2.1 1 demoOrderBody demoNow demoOrphanStore,
   rfl, rfl,
   update_sales_order_404_iff_absent.2.2 1 demoOrderBody demoNow demoOrphanStore
     demoOrderRow rfl rfl⟩

/-- All customer rows of a store carry a non-empty `entityId`. -/
def EntityIdsNonempty (s : Store) : Prop := ∀ c ∈ s.customers, c.entityId ≠ ""

/-- Every handled request preserves non-emptiness of all stored
`entityId`s: customer creation patches the fresh row to `CUST-{id}` before
its result commits, customer update never touches the column, and no other
endpoint writes the `customers` table. -/
theorem step_preserves_entityIds {s t : Store} (st : Step s t) (h : EntityIdsNonempty s) :
    EntityIdsNonempty t := by
  cases st with
  | createCustomer c now =>
      intro x hx
      simp only [create_customer, List.map_append, List.mem_append, List.mem_map,
        List.map_cons, List.map_nil, List.mem_cons, List.not_mem_nil, or_false] at hx
      rcases hx with ⟨y, hy, hxy⟩ | hx
      · by_cases hid : (y.id == nextCustomerId s) = true
        · rw [if_pos hid] at hxy
          rw [← hxy]
          exact cust_prefixed_ne_empty _
        · rw [if_neg hid] at hxy
          rw [← hxy]
          exact h y hy
      · rw [if_pos (by simp)] at hx
        rw [hx]
        exact cust_prefixed_ne_empty _
  | getCollection => exact h
  | getById i =>
      rw [get_customer_by_id_fst]
      exact h
  | updateCustomer i c now =>
      intro x hx
      cases hfind : s.customers.find? (fun y => y.id == i) with
      | none =>
          simp only [update_customer, hfind] at hx
          exact h x hx
      | some cu =>
          simp only [update_customer, hfind, List.mem_map] at hx
          obtain ⟨y, hy, hxy⟩ := hx
          by_cases hid : (y.id == i) = true
          · rw [if_pos hid] at hxy
            rw [← hxy, apply_customer_update_entityId]
            exact h cu (List.mem_of_find?_eq_some hfind)
          · rw [if_neg hid] at hxy
            rw [← hxy]
            exact h y hy
  | deleteCustomer i =>
      intro x hx
      cases hfind : s.customers.find? (fun y => y.id == i) with
      | none =>
          simp only [delete_customer, hfind] at hx
          exact h x hx
      | some cu =>
          simp only [delete_customer, hfind] at hx
          exact h x (List.mem_of_mem_filter hx)
  | createSalesOrder o today =>
      rw [create_sales_order_fst]
      exact h
  | updateSalesOrder i o now =>
      intro x hx
      rw [update_sales_order_fst_customers] at hx
      exact h x hx
  | deleteSalesOrder i =>
      intro x hx
      rw [delete_sales_order_fst_customers] at hx
      exact h x hx

/-- The non-empty-`entityId` invariant holds in every reachable store. -/
theorem reachable_entityIds {s : Store} (hs : Reachable s) : EntityIdsNonempty s := by
  induction hs with
  | init => intro c hc; simp [emptyStore] at hc
  | step _ st ih => exact step_preserves_entityIds st ih

/-- C2: every Customer create returns 201 with a record whose `entityId` is
`"CUST-"` followed by the store-assigned id, and consequently every customer
row of every externally observable (reachable) store state has a non-empty
`entityId`. -/
theorem create_customer_entityId_contract :
    (∀ (c : CustomerBase) (now : String) (db : Store),
        ∃ body : DBCustomer,
          (create_customer c now db).2 = .ok { status_code := 201, body := body } ∧
          body.id = nextCustomerId db ∧
          body.entityId = "CUST-" ++ toString body.id) ∧
    (∀ s : Store, Reachable s → ∀ c ∈ s.customers, c.entityId ≠ "") := by
  constructor
  · intro c now db
    exact ⟨_, rfl, rfl, rfl⟩
  · intro s hs
    exact reachable_entityIds hs

/-- Witness for C2: the concrete create against the fresh store, and the
invariant evaluated on the reachable one-customer store. -/
theorem create_customer_entityId_contract_witness :
    (∃ body : DBCustomer,
      (create_customer demoCreateBody demoNow emptyStore).2 =
        .ok { status_code := 201, body := body } ∧
      body.id = nextCustomerId emptyStore ∧
      body.entityId = "CUST-" ++ toString body.id) ∧
    (Reachable demoStore ∧ ∀ c ∈ demoStore.customers, c.entityId ≠ "") :=
  ⟨create_customer_entityId_contract.1 demoCreateBody demoNow emptyStore,
   have hr : Reachable demoStore :=
     Reachable.step Reachable.init (Step.createCustomer demoCreateBody demoNow emptyStore)
   ⟨hr, create_customer_entityId_contract.2 demoStore hr⟩⟩

/-- C1 (code bug): Sales Order creation can never return 201.  Past the
customer-existence check, line 194 passes the keyword `trandate` twice to
the `DBSalesOrder` constructor — once inside `**order.model_dump()` and once
explicitly — so Python raises a TypeError on every request that clears
validation, and FastAPI surfaces a 500; nothing is inserted.  Concretely,
the spec-§8 request `{entity: 1, total: 99.5}` against the one-customer
store, whose `entity` does match an existing Customer id, crashes instead
of returning the record; and in general no input ever yields a success. -/
theorem create_sales_order_never_succeeds :
    ((demoStore.customers.find? (fun c => c.id == demoOrderBody.entity)).isSome = true ∧
      create_sales_order demoOrderBody demoNow demoStore =
        (demoStore, .error (.typeError "got multiple values for keyword argument trandate"))) ∧
    ∀ (o : SalesOrderBase) (today : String) (db : Store),
      ∃ e : ApiError, (create_sales_order o today db).2 = .error e := by
  refine ⟨⟨by decide, ?_⟩, ?_⟩
  · have h : demoStore.customers.find? (fun c => c.id == demoOrderBody.entity) =
        some demoCustomer := by decide
    simp [create_sales_order, h]
  · intro o today db
    cases hfind : db.customers.find? (fun c => c.id == o.entity) with
    | none =>
        exact ⟨.http 400 ("Customer ID " ++ toString o.entity ++
          " not found. Cannot create Sales Order."), by simp [create_sales_order, hfind]⟩
    | some cu =>
        exact ⟨.typeError "got multiple values for keyword argument trandate",
          by simp [create_sales_order, hfind]⟩

end GetSuite
